import Mathlib

/-!
Verification development for the fiscalshield-idp-core document-intake
repository.  The Python resolvers are shallowly embedded: Python dicts become
association lists over a small value type, Python exceptions become an error
type carried by `Except`, and the DynamoDB tracking table becomes an explicit
key-value store threaded through the handler.  External collaborators that are
imported by the resolver but live outside the repository sources
(`robust_list_deletion.calculate_shard` and
`robust_list_deletion.delete_list_entries_robust`) are opaque parameters of the
embedded handler, collected in a `Behavior` record.
-/

/-- A scalar value stored in a Python dict: a string, a number, or `None`.
These are the shapes that flow through the resolvers' inputs and items. -/
inductive Val where
  | str (s : String)
  | num (n : Int)
  | null
deriving DecidableEq

/-- A Python dict, embedded as an association list from string keys to values. -/
abbrev Obj := List (String × Val)

/-- Python truthiness of a value: empty string, zero and `None` are falsy. -/
def vtruthy : Val → Bool
  | .str s => s != ""
  | .num n => n != 0
  | .null => false

/-- Truthiness of the result of `dict.get(k)`: a missing key gives `None`,
which is falsy. -/
def pyTruthy : Option Val → Bool
  | some v => vtruthy v
  | none => false

/-- Embedding of `d.get(k)` / `d[k]`: the value bound to the first occurrence
of key `k`, if any. -/
def objGet : Obj → String → Option Val
  | [], _ => none
  | p :: rest, k => if p.1 = k then some p.2 else objGet rest k

/-- Whether a dict binds key `k`. -/
def objHasKey (d : Obj) (k : String) : Bool := (objGet d k).isSome

/-- Embedding of inserting `k: v` into a dict: an existing key keeps its
position and gets the new value, a new key is appended (CPython dict order). -/
def setKey (d : Obj) (k : String) (v : Val) : Obj :=
  if objHasKey d k then d.map (fun q => if q.1 = k then (k, v) else q)
  else d ++ [(k, v)]

/-- Embedding of the dict construction `{**d1, **d2}` (also of a dict literal
whose explicit entries `d1` are followed by a spread `**d2`): entries of `d2`
are inserted into `d1` in order, later bindings overriding earlier ones. -/
def dictUnion (d1 d2 : Obj) : Obj := d2.foldl (fun acc q => setKey acc q.1 q.2) d1

/-- Python exceptions that the embedded code can raise: `ValueError`,
`TypeError`, and store-level (botocore) exceptions. -/
inductive PyErr where
  | valueError (msg : String)
  | typeError (msg : String)
  | storeError (msg : String)
deriving DecidableEq

/-- Embedding of Python `str.split(sep)` for a one-character separator,
on the character list of the string.  `''.split(sep) == ['']`. -/
def charSplit (sep : Char) : List Char → List (List Char)
  | [] => [[]]
  | c :: cs =>
    let r := charSplit sep cs
    if c = sep then [] :: r
    else
      match r with
      | [] => [[c]]
      | w :: ws => (c :: w) :: ws

/-- Embedding of Python `s.split(sep)` for a one-character separator. -/
def py_split (s : String) (sep : Char) : List String :=
  (charSplit sep s.data).map String.mk

/-- Embedding of Python `s.startswith(pre)`. -/
def py_startswith (s pre : String) : Bool := pre.data.isPrefixOf s.data

namespace QueueSender

/-- Embedding of `queue_sender.index.extract_user_id_from_path`: requires the
object key to start with `users/`, to split on `/` into at least three parts,
and the second part (the user id) to be non-empty; raises `ValueError`
otherwise. -/
def extract_user_id_from_path (object_key : String) : Except PyErr String :=
  if py_startswith object_key ("users/") = false then
    .error (.valueError ("Invalid path format. Expected users/<user_id>/, got: " ++ object_key))
  else
    match py_split object_key '/' with
    | _ :: u :: _ :: _ =>
      if u = "" then .error (.valueError ("User ID is empty in path: " ++ object_key))
      else .ok u
    | _ =>
      .error (.valueError ("Invalid path structure. Expected at least 3 parts, got: " ++ object_key))

end QueueSender

namespace CreateDocumentResolver

/-- Embedding of `create_document_resolver.index.extract_user_id`: the `sub`
identity field takes priority, `username` is the fallback, and a `ValueError`
is raised when neither is truthy. -/
def extract_user_id (identity : Obj) : Except PyErr Val :=
  if pyTruthy (objGet identity ("sub")) then .ok ((objGet identity ("sub")).getD Val.null)
  else if pyTruthy (objGet identity ("username")) then .ok ((objGet identity ("username")).getD Val.null)
  else .error (.valueError ("User not authenticated - missing user ID"))

/-- Embedding of `create_document_resolver.index.validate_user_id`: the
`re.match` call demands a string argument (`TypeError` otherwise) and only logs
a warning when the pattern does not match, returning the user id unchanged. -/
def validate_user_id : Val → Except PyErr String
  | .str s => .ok s
  | _ => .error (.typeError ("expected string or bytes-like object"))

end CreateDocumentResolver

namespace UploadResolver

/-- Embedding of `upload_resolver.index.extract_user_id`: here the `username`
identity field takes priority and `sub` is the fallback — the opposite
precedence to the create-document resolver. -/
def extract_user_id (identity : Obj) : Except PyErr Val :=
  if pyTruthy (objGet identity ("username")) then .ok ((objGet identity ("username")).getD Val.null)
  else if pyTruthy (objGet identity ("sub")) then .ok ((objGet identity ("sub")).getD Val.null)
  else .error (.valueError ("User not authenticated - missing user ID"))

end UploadResolver

/-- The tracking table, keyed by the string pair (PK, SK). -/
abbrev Store := List ((String × String) × Obj)

namespace Store

/-- Direct key lookup in the tracking table (DynamoDB `get_item`). -/
def lookup : Store → (String × String) → Option Obj
  | [], _ => none
  | e :: rest, key => if e.1 = key then some e.2 else lookup rest key

/-- Remove any item stored under `key`. -/
def erase : Store → (String × String) → Store
  | [], _ => []
  | e :: rest, key => if e.1 = key then erase rest key else e :: erase rest key

/-- Overwrite-put of an item under `key` (DynamoDB `put_item` semantics:
last writer wins for a given key). -/
def put (s : Store) (key : String × String) (it : Obj) : Store :=
  (key, it) :: erase s key

end Store

/-- The key pair DynamoDB derives from an item: its `PK` and `SK` attributes,
which must both be present and string-valued (otherwise the put is rejected
with a validation error). -/
def itemKey (it : Obj) : Option (String × String) :=
  match objGet it ("PK"), objGet it ("SK") with
  | some (.str p), some (.str q) => some (p, q)
  | _, _ => none

/-- One store-facing step of the create-document resolver, recorded in
invocation order so that temporal claims can be stated about a run. -/
inductive Act where
  | getItem (pk sk : String)
  | deleteRobust (object_key : String) (record : Obj)
  | putItem (item : Obj)
deriving DecidableEq

/-- Whether an action is one of the resolver's two item writes. -/
def Act.isPut : Act → Bool
  | .putItem _ => true
  | _ => false

/-- Whether an action is the robust list-entry deletion call. -/
def Act.isDel : Act → Bool
  | .deleteRobust _ _ => true
  | _ => false

/-- The environment of one resolver invocation: fault injection for the store
primitives, plus the two collaborators imported from `robust_list_deletion`,
whose sources are outside this repository and are therefore opaque functions
here.  `delete_robust` may mutate the store arbitrarily and return either a
boolean or an exception; `calculate_shard` returns a (date, shard) string pair
or raises. -/
structure Behavior where
  getFault : Option PyErr
  putFault : Obj → Option PyErr
  delete_robust : String → Obj → Store → Except PyErr Bool × Store
  calculate_shard : String → Except PyErr (String × String)

/-- Embedding of `table.put_item(Item=it)`: an injected fault or a missing /
non-string key raises; otherwise the item is stored under its own key pair. -/
def put_item (B : Behavior) (s : Store) (it : Obj) : Except PyErr Store :=
  match B.putFault it with
  | some err => .error err
  | none =>
    match itemKey it with
    | none => .error (.storeError ("ValidationException"))
    | some key => .ok (Store.put s key it)

/-- An AppSync invocation of the create-document resolver:
`event.arguments.input` and `event.identity` (an absent identity is the empty
dict, matching `event.get('identity', {})`). -/
structure Event where
  input : Obj
  identity : Obj

/-- The observable outcome of one resolver invocation: the returned value or
propagated exception, the final store, and the ordered store-facing trace. -/
structure Outcome where
  result : Except PyErr Obj
  store : Store
  trace : List Act

/-- Embedding of the document-record partition key built at
`create_document_resolver.index` line 94: always the user-scoped form. -/
def doc_pk (user_id object_key : String) : String :=
  "user#" ++ user_id ++ "#doc#" ++ object_key

/-- Embedding of the document-record sort key (line 95): the literal `none`. -/
def doc_sk : String := "none"

/-- Embedding of the list-index partition key (line 130). -/
def list_pk (date_part shard_str : String) : String :=
  "list#" ++ date_part ++ "#s#" ++ shard_str

/-- Embedding of the list-index sort key (line 131). -/
def list_sk (queued_time object_key : String) : String :=
  "ts#" ++ queued_time ++ "#id#" ++ object_key

namespace CreateDocumentResolver

/-- Embedding of the user-id resolution at lines 66-71: a truthy `UserId` in
the input wins, otherwise the id is extracted from the identity context. -/
def resolveUserId (e : Event) : Except PyErr Val :=
  if pyTruthy (objGet e.input ("UserId")) then .ok ((objGet e.input ("UserId")).getD Val.null)
  else extract_user_id e.identity

/-- A required input field must be a truthy string (lines 83-86): missing,
falsy or non-string values fail the check. -/
def nonEmptyStr : Option Val → Option String
  | some (.str s) => if s = "" then none else some s
  | _ => none

/-- Embedding of the validation part of the handler (lines 63-86), in source
order: user-id resolution, user-id validation, the empty-input check, and the
`ObjectKey` / `QueuedTime` checks.  Returns the resolved triple. -/
def validateEvent (e : Event) : Except PyErr (String × String × String) :=
  match resolveUserId e with
  | .error err => .error err
  | .ok v =>
    match validate_user_id v with
    | .error err => .error err
    | .ok user_id =>
      if e.input.isEmpty then .error (.valueError ("Input data is required"))
      else
        match nonEmptyStr (objGet e.input ("ObjectKey")) with
        | none => .error (.valueError ("ObjectKey must be a non-empty string"))
        | some object_key =>
          match nonEmptyStr (objGet e.input ("QueuedTime")) with
          | none => .error (.valueError ("QueuedTime must be a non-empty string"))
          | some queued_time => .ok (user_id, object_key, queued_time)

/-- Embedding of the best-effort existence check (lines 97-112): the
`get_item` call either faults (the exception is swallowed and `existing_doc`
stays `None`) or returns the stored item, if any. -/
def existenceCheck (B : Behavior) (s0 : Store) (dpk : String) : Option Obj :=
  match B.getFault with
  | some _ => none
  | none => Store.lookup s0 (dpk, doc_sk)

/-- Embedding of lines 114-126: when a truthy existing document was found, the
robust deletion collaborator is invoked with the object key and that stored
record; any exception it raises is swallowed.  Returns the store it left
behind and the recorded action. -/
def deletionStep (B : Behavior) (object_key : String) (s0 : Store) :
    Option Obj → Store × List Act
  | some rec => if rec.isEmpty then (s0, [])
      else ((B.delete_robust object_key rec s0).2, [Act.deleteRobust object_key rec])
  | none => (s0, [])

/-- The document record item put at lines 142-148: the dict literal places the
computed `PK`/`SK` first and then spreads `{**input_data, 'UserId': user_id}`
over them. -/
def mkDocItem (user_id object_key : String) (inp : Obj) : Obj :=
  dictUnion [(("PK"), Val.str (doc_pk user_id object_key)), (("SK"), Val.str doc_sk)]
    (setKey inp ("UserId") (Val.str user_id))

/-- The list-index item put at lines 152-161: fixed fields only, with
`ExpiresAfter` defaulting to `None` via `input_data.get('ExpiresAfter')`. -/
def mkListItem (user_id object_key queued_time date_part shard_str : String) (inp : Obj) : Obj :=
  [(("PK"), Val.str (list_pk date_part shard_str)),
   (("SK"), Val.str (list_sk queued_time object_key)),
   (("ObjectKey"), Val.str object_key),
   (("QueuedTime"), Val.str queued_time),
   (("UserId"), Val.str user_id),
   (("ExpiresAfter"), (objGet inp ("ExpiresAfter")).getD Val.null)]

/-- Embedding of lines 128-168: the shard calculation (whose error propagates)
followed by the two sequential `put_item` calls (whose errors are re-raised).
Returns the result, the store, and the put actions attempted. -/
def writePhase (B : Behavior) (user_id object_key queued_time : String) (inp : Obj)
    (s1 : Store) : Except PyErr Obj × Store × List Act :=
  match B.calculate_shard queued_time with
  | .error err => (.error err, s1, [])
  | .ok ds =>
    let docItem := mkDocItem user_id object_key inp
    match put_item B s1 docItem with
    | .error err => (.error err, s1, [Act.putItem docItem])
    | .ok s2 =>
      let listItem := mkListItem user_id object_key queued_time ds.1 ds.2 inp
      match put_item B s2 listItem with
      | .error err => (.error err, s2, [Act.putItem docItem, Act.putItem listItem])
      | .ok s3 =>
        (.ok [(("ObjectKey"), Val.str object_key), (("UserId"), Val.str user_id)], s3,
         [Act.putItem docItem, Act.putItem listItem])

/-- The body of the handler after validation (lines 93-168): existence check,
conditional robust deletion, then the write phase. -/
def handlerCore (B : Behavior) (user_id object_key queued_time : String) (inp : Obj)
    (s0 : Store) : Outcome :=
  let dpk := doc_pk user_id object_key
  let ex := existenceCheck B s0 dpk
  let ds := deletionStep B object_key s0 ex
  let wr := writePhase B user_id object_key queued_time inp ds.1
  ⟨wr.1, wr.2.1, Act.getItem dpk doc_sk :: (ds.2 ++ wr.2.2)⟩

/-- Embedding of `create_document_resolver.index.handler`: validation errors
propagate with the store untouched; otherwise the core runs.  The outer
`try/except` at lines 169-171 logs and re-raises, so it adds nothing. -/
def handler (B : Behavior) (e : Event) (s0 : Store) : Outcome :=
  match validateEvent e with
  | .error err => ⟨.error err, s0, []⟩
  | .ok (user_id, object_key, queued_time) => handlerCore B user_id object_key queued_time e.input s0

end CreateDocumentResolver

section HelperLemmas

theorem str_data_append (a b : String) : (a ++ b).data = a.data ++ b.data := by
  rcases a with ⟨A⟩; rcases b with ⟨B⟩; rfl

theorem list_sk_ne_doc_sk (t k : String) : list_sk t k ≠ doc_sk := by
  intro h
  have h2 := congrArg String.data h
  rw [list_sk, doc_sk, str_data_append] at h2
  simp at h2

theorem lookup_put_same (s : Store) (key : String × String) (it : Obj) :
    Store.lookup (Store.put s key it) key = some it := by
  simp [Store.put, Store.lookup]

theorem lookup_erase_ne (s : Store) (key key' : String × String) (h : key' ≠ key) :
    Store.lookup (Store.erase s key) key' = Store.lookup s key' := by
  induction s with
  | nil => rfl
  | cons e rest ih =>
    by_cases he : e.1 = key
    · have hne : ¬ e.1 = key' := by rw [he]; exact fun hh => h hh.symm
      rw [Store.erase, if_pos he, ih, Store.lookup, if_neg hne]
    · rw [Store.erase, if_neg he, Store.lookup, Store.lookup]
      by_cases he' : e.1 = key'
      · rw [if_pos he', if_pos he']
      · rw [if_neg he', if_neg he', ih]

theorem lookup_put_ne (s : Store) (key key' : String × String) (it : Obj) (h : key' ≠ key) :
    Store.lookup (Store.put s key it) key' = Store.lookup s key' := by
  rw [Store.put, Store.lookup, if_neg (fun hh => h hh.symm), lookup_erase_ne s key key' h]

theorem objGet_map_set (d : Obj) (k k' : String) (v : Val) (h : k' ≠ k) :
    objGet (d.map (fun q => if q.1 = k then (k, v) else q)) k' = objGet d k' := by
  induction d with
  | nil => rfl
  | cons p rest ih =>
    by_cases hp : p.1 = k
    · have h1 : ¬ (k = k') := fun hh => h hh.symm
      have h2 : ¬ (p.1 = k') := by rw [hp]; exact h1
      simp only [List.map_cons, objGet, hp, if_pos rfl, if_true, h1, h2, if_false, ih]
    · simp only [List.map_cons, objGet, hp, if_false, ih]

theorem objGet_append_single (d : Obj) (k k' : String) (v : Val) (h : k' ≠ k) :
    objGet (d ++ [(k, v)]) k' = objGet d k' := by
  induction d with
  | nil =>
    simp only [List.nil_append, objGet]
    rw [if_neg (fun hh : k = k' => h hh.symm)]
  | cons p rest ih =>
    by_cases hp : p.1 = k'
    · simp only [List.cons_append, objGet, hp, if_true, if_pos rfl]
    · simp only [List.cons_append, objGet, hp, if_false]
      exact ih

theorem objGet_setKey_ne (d : Obj) (k k' : String) (v : Val) (h : k' ≠ k) :
    objGet (setKey d k v) k' = objGet d k' := by
  rw [setKey]
  by_cases hk : objHasKey d k
  · rw [if_pos hk]; exact objGet_map_set d k k' v h
  · rw [if_neg hk]; exact objGet_append_single d k k' v h

theorem objGet_eq_none_forall (d : Obj) (k : String) (h : objGet d k = none) :
    ∀ p ∈ d, p.1 ≠ k := by
  induction d with
  | nil => intro p hp; cases hp
  | cons q rest ih =>
    intro p hp
    rw [objGet] at h
    by_cases hq : q.1 = k
    · rw [if_pos hq] at h; cases h
    · rw [if_neg hq] at h
      rcases List.mem_cons.mp hp with hp1 | hp1
      · rw [hp1]; exact hq
      · exact ih h p hp1

theorem mem_setKey (d : Obj) (k : String) (v : Val) :
    ∀ p ∈ setKey d k v, p.1 = k ∨ p ∈ d := by
  intro p hp
  rw [setKey] at hp
  by_cases hk : objHasKey d k
  · rw [if_pos hk] at hp
    rcases List.mem_map.mp hp with ⟨q, hq, hfq⟩
    by_cases hq1 : q.1 = k
    · rw [if_pos hq1] at hfq
      left; rw [← hfq]
    · rw [if_neg hq1] at hfq
      right; rw [← hfq]; exact hq
  · rw [if_neg hk] at hp
    rcases List.mem_append.mp hp with hp1 | hp1
    · right; exact hp1
    · left
      have h1 := List.mem_singleton.mp hp1
      rw [h1]

theorem objGet_dictUnion_not_mem (d1 d2 : Obj) (k : String) (h : ∀ p ∈ d2, p.1 ≠ k) :
    objGet (dictUnion d1 d2) k = objGet d1 k := by
  induction d2 generalizing d1 with
  | nil => rfl
  | cons q rest ih =>
    rw [dictUnion, List.foldl_cons]
    have step : objGet (dictUnion (setKey d1 q.1 q.2) rest) k = objGet (setKey d1 q.1 q.2) k :=
      ih (setKey d1 q.1 q.2) (fun p hp => h p (List.mem_cons_of_mem q hp))
    rw [dictUnion] at step
    rw [step]
    exact objGet_setKey_ne d1 q.1 k q.2
      (fun hh => h q (List.mem_cons_self q rest) (by rw [hh]))

end HelperLemmas

namespace CreateDocumentResolver

theorem input_not_empty_of_get (d : Obj) (k : String) (v : Val) (h : objGet d k = some v) :
    d.isEmpty = false := by
  cases d with
  | nil => cases h
  | cons p rest => rfl

theorem validateEvent_ok (e : Event) (u k t : String)
    (hu : resolveUserId e = .ok (Val.str u))
    (hk : objGet e.input ("ObjectKey") = some (Val.str k)) (hk2 : k ≠ "")
    (ht : objGet e.input ("QueuedTime") = some (Val.str t)) (ht2 : t ≠ "") :
    validateEvent e = .ok (u, k, t) := by
  rw [validateEvent, hu]
  simp only [validate_user_id]
  rw [input_not_empty_of_get e.input ("ObjectKey") (Val.str k) hk]
  simp only [Bool.false_eq_true, if_false, hk, ht, nonEmptyStr, hk2, ht2]

theorem handler_eq_core (B : Behavior) (e : Event) (s0 : Store) (u k t : String)
    (h : validateEvent e = .ok (u, k, t)) :
    handler B e s0 = handlerCore B u k t e.input s0 := by
  rw [handler, h]

theorem handler_of_validate_error (B : Behavior) (e : Event) (s0 : Store) (f : PyErr)
    (h : validateEvent e = .error f) :
    handler B e s0 = ⟨.error f, s0, []⟩ := by
  rw [handler, h]

theorem existenceCheck_fault (B : Behavior) (s0 : Store) (dpk : String) (f : PyErr)
    (h : B.getFault = some f) : existenceCheck B s0 dpk = none := by
  rw [existenceCheck, h]

theorem existenceCheck_clean (B : Behavior) (s0 : Store) (dpk : String)
    (h : B.getFault = none) : existenceCheck B s0 dpk = Store.lookup s0 (dpk, doc_sk) := by
  rw [existenceCheck, h]

theorem deletionStep_none (B : Behavior) (k : String) (s0 : Store) :
    deletionStep B k s0 none = (s0, []) := rfl

theorem deletionStep_some (B : Behavior) (k : String) (s0 : Store) (rec : Obj)
    (h : rec ≠ []) :
    deletionStep B k s0 (some rec) =
      ((B.delete_robust k rec s0).2, [Act.deleteRobust k rec]) := by
  cases rec with
  | nil => cases h rfl
  | cons p rest => rfl

theorem itemKey_mkListItem (u k t d sh : String) (inp : Obj) :
    itemKey (mkListItem u k t d sh inp) = some (list_pk d sh, list_sk t k) := rfl

theorem itemKey_mkDocItem (u k : String) (inp : Obj)
    (hPK : objGet inp ("PK") = none) (hSK : objGet inp ("SK") = none) :
    itemKey (mkDocItem u k inp) = some (doc_pk u k, doc_sk) := by
  have hP2 : ∀ p ∈ setKey inp ("UserId") (Val.str u), p.1 ≠ "PK" := by
    intro p hp
    rcases mem_setKey inp ("UserId") (Val.str u) p hp with h1 | h1
    · rw [h1]; decide
    · exact objGet_eq_none_forall inp ("PK") hPK p h1
  have hS2 : ∀ p ∈ setKey inp ("UserId") (Val.str u), p.1 ≠ "SK" := by
    intro p hp
    rcases mem_setKey inp ("UserId") (Val.str u) p hp with h1 | h1
    · rw [h1]; decide
    · exact objGet_eq_none_forall inp ("SK") hSK p h1
  have gP : objGet (mkDocItem u k inp) ("PK") = some (Val.str (doc_pk u k)) := by
    rw [mkDocItem, objGet_dictUnion_not_mem _ _ _ hP2]
    rfl
  have gS : objGet (mkDocItem u k inp) ("SK") = some (Val.str doc_sk) := by
    rw [mkDocItem, objGet_dictUnion_not_mem _ _ _ hS2]
    rfl
  rw [itemKey, gP, gS]

theorem writePhase_shard_error (B : Behavior) (u k t : String) (inp : Obj) (s1 : Store)
    (f : PyErr) (hsh : B.calculate_shard t = .error f) :
    writePhase B u k t inp s1 = (.error f, s1, []) := by
  rw [writePhase, hsh]

theorem writePhase_docfail (B : Behavior) (u k t : String) (inp : Obj) (s1 : Store)
    (d sh : String) (f : PyErr)
    (hsh : B.calculate_shard t = .ok (d, sh))
    (hdf : B.putFault (mkDocItem u k inp) = some f) :
    writePhase B u k t inp s1 = (.error f, s1, [Act.putItem (mkDocItem u k inp)]) := by
  rw [writePhase, hsh]
  simp only [put_item, hdf]

theorem writePhase_listfail (B : Behavior) (u k t : String) (inp : Obj) (s1 : Store)
    (d sh : String) (f : PyErr) (kd : String × String)
    (hsh : B.calculate_shard t = .ok (d, sh))
    (hdf : B.putFault (mkDocItem u k inp) = none)
    (hkd : itemKey (mkDocItem u k inp) = some kd)
    (hlf : B.putFault (mkListItem u k t d sh inp) = some f) :
    writePhase B u k t inp s1 =
      (.error f, Store.put s1 kd (mkDocItem u k inp),
       [Act.putItem (mkDocItem u k inp), Act.putItem (mkListItem u k t d sh inp)]) := by
  rw [writePhase, hsh]
  simp only [put_item, hdf, hkd, hlf]

theorem writePhase_ok (B : Behavior) (u k t : String) (inp : Obj) (s1 : Store)
    (d sh : String) (kd : String × String)
    (hsh : B.calculate_shard t = .ok (d, sh))
    (hdf : B.putFault (mkDocItem u k inp) = none)
    (hkd : itemKey (mkDocItem u k inp) = some kd)
    (hlf : B.putFault (mkListItem u k t d sh inp) = none) :
    writePhase B u k t inp s1 =
      (.ok [(("ObjectKey"), Val.str k), (("UserId"), Val.str u)],
       Store.put (Store.put s1 kd (mkDocItem u k inp))
         (list_pk d sh, list_sk t k) (mkListItem u k t d sh inp),
       [Act.putItem (mkDocItem u k inp), Act.putItem (mkListItem u k t d sh inp)]) := by
  rw [writePhase, hsh]
  simp only [put_item, hdf, hkd, hlf, itemKey_mkListItem]

theorem handlerCore_unfold (B : Behavior) (u k t : String) (inp : Obj) (s0 : Store) :
    handlerCore B u k t inp s0 =
      ⟨(writePhase B u k t inp (deletionStep B k s0 (existenceCheck B s0 (doc_pk u k))).1).1,
       (writePhase B u k t inp (deletionStep B k s0 (existenceCheck B s0 (doc_pk u k))).1).2.1,
       Act.getItem (doc_pk u k) doc_sk ::
         ((deletionStep B k s0 (existenceCheck B s0 (doc_pk u k))).2 ++
          (writePhase B u k t inp (deletionStep B k s0 (existenceCheck B s0 (doc_pk u k))).1).2.2)⟩ := rfl

end CreateDocumentResolver

/-- C7: for every object_key string supplied to create_document, the key is
used verbatim (unmodified, unparsed) as the keying input: it appears
character-for-character as the suffix of the computed Document Record
partition key and of the computed List-Index Entry sort key. -/
theorem C7_object_key_verbatim (u k t : String) :
    (∃ p, doc_pk u k = p ++ k) ∧ (∃ p, list_sk t k = p ++ k) := by
  constructor
  · exact ⟨"user#" ++ u ++ "#doc#", by simp [doc_pk, String.append_assoc]⟩
  · exact ⟨"ts#" ++ t ++ "#id#", by simp [list_sk, String.append_assoc]⟩

/-- C9: the create-document resolver's extract_user_id returns the identity's
sub whenever it is present and non-empty, even when username is also present;
it returns username only when sub is absent or empty; it raises ValueError
when neither is present; and the upload resolver applies the opposite
precedence, username before sub. -/
theorem C9_extract_user_id_precedence (identity : Obj) (s uName : String) :
    (objGet identity ("sub") = some (Val.str s) → s ≠ "" →
      CreateDocumentResolver.extract_user_id identity = .ok (Val.str s))
  ∧ ((objGet identity ("sub") = none ∨ objGet identity ("sub") = some (Val.str (""))) →
      objGet identity ("username") = some (Val.str uName) → uName ≠ "" →
      CreateDocumentResolver.extract_user_id identity = .ok (Val.str uName))
  ∧ (objGet identity ("sub") = none → objGet identity ("username") = none →
      CreateDocumentResolver.extract_user_id identity =
        .error (.valueError ("User not authenticated - missing user ID")))
  ∧ (objGet identity ("username") = some (Val.str uName) → uName ≠ "" →
      UploadResolver.extract_user_id identity = .ok (Val.str uName)) := by
  refine ⟨?_, ?_, ?_, ?_⟩
  · intro h1 h2
    simp [CreateDocumentResolver.extract_user_id, h1, pyTruthy, vtruthy, h2]
  · intro h1 h2 h3
    rcases h1 with h1 | h1 <;>
      simp [CreateDocumentResolver.extract_user_id, h1, h2, pyTruthy, vtruthy, h3]
  · intro h1 h2
    simp [CreateDocumentResolver.extract_user_id, h1, h2, pyTruthy]
  · intro h1 h2
    simp [UploadResolver.extract_user_id, h1, pyTruthy, vtruthy, h2]

/-- C9 witness: with both identity fields present, the create-document
resolver extracts the sub value and the upload resolver the username value. -/
theorem C9_witness :
    CreateDocumentResolver.extract_user_id
      [(("username"), Val.str ("alice")), (("sub"), Val.str ("uuid-1"))] = .ok (Val.str ("uuid-1"))
  ∧ UploadResolver.extract_user_id
      [(("username"), Val.str ("alice")), (("sub"), Val.str ("uuid-1"))] = .ok (Val.str ("alice")) :=
  ⟨(C9_extract_user_id_precedence
      [(("username"), Val.str ("alice")), (("sub"), Val.str ("uuid-1"))] ("uuid-1") ("alice")).1
      (by decide) (by decide),
   (C9_extract_user_id_precedence
      [(("username"), Val.str ("alice")), (("sub"), Val.str ("uuid-1"))] ("uuid-1") ("alice")).2.2.2
      (by decide) (by decide)⟩

/-- C10: extract_user_id_from_path returns the segment between the first and
second slash (the second split part) exactly when the object key starts with
users/, splits on the slash into at least three parts, and that second part is
non-empty; in every other case it raises ValueError. -/
theorem C10_extract_user_id_from_path_spec (k u : String) :
    (QueueSender.extract_user_id_from_path k = .ok u ↔
      (py_startswith k ("users/") = true ∧ 3 ≤ (py_split k '/').length ∧
       (py_split k '/').get? 1 = some u ∧ u ≠ ""))
  ∧ ((∀ w, QueueSender.extract_user_id_from_path k ≠ .ok w) →
      ∃ m, QueueSender.extract_user_id_from_path k = .error (.valueError m)) := by
  constructor
  · by_cases hb : py_startswith k ("users/")
    · rcases hl : py_split k '/' with _ | ⟨a, _ | ⟨b, _ | ⟨c, rest⟩⟩⟩
      · simp [QueueSender.extract_user_id_from_path, hb, hl]
      · simp [QueueSender.extract_user_id_from_path, hb, hl]
      · simp [QueueSender.extract_user_id_from_path, hb, hl]
      · by_cases hbb : b = ""
        · simp [QueueSender.extract_user_id_from_path, hb, hl, hbb]
          exact fun h1 => h1.symm
        · simp [QueueSender.extract_user_id_from_path, hb, hl, hbb]
          intro h1
          rw [← h1]; exact hbb
    · have hb2 : py_startswith k ("users/") = false := by
        cases hpb : py_startswith k ("users/")
        · rfl
        · exact absurd hpb hb
      simp [QueueSender.extract_user_id_from_path, hb2]
  · intro h
    by_cases hb : py_startswith k ("users/") = false
    · exact ⟨("Invalid path format. Expected users/<user_id>/, got: " ++ k),
        by simp [QueueSender.extract_user_id_from_path, hb]⟩
    · rcases hl : py_split k '/' with _ | ⟨a, _ | ⟨b, _ | ⟨c, rest⟩⟩⟩
      · exact ⟨("Invalid path structure. Expected at least 3 parts, got: " ++ k),
          by simp [QueueSender.extract_user_id_from_path, hb, hl]⟩
      · exact ⟨("Invalid path structure. Expected at least 3 parts, got: " ++ k),
          by simp [QueueSender.extract_user_id_from_path, hb, hl]⟩
      · exact ⟨("Invalid path structure. Expected at least 3 parts, got: " ++ k),
          by simp [QueueSender.extract_user_id_from_path, hb, hl]⟩
      · by_cases hbb : b = ""
        · exact ⟨("User ID is empty in path: " ++ k),
            by simp [QueueSender.extract_user_id_from_path, hb, hl, hbb]⟩
        · exact absurd
            (by simp [QueueSender.extract_user_id_from_path, hb, hl, hbb] :
              QueueSender.extract_user_id_from_path k = .ok b)
            (h b)

/-- C10 witness: a well-formed user-scoped path yields its user-id segment. -/
theorem C10_witness :
    QueueSender.extract_user_id_from_path ("users/u1/a.pdf") = .ok ("u1") :=
  (C10_extract_user_id_from_path_spec ("users/u1/a.pdf") ("u1")).1.mpr
    ⟨by decide, by decide, by decide, by decide⟩

namespace CreateDocumentResolver

theorem extract_user_id_error (identity : Obj) (f : PyErr)
    (h : extract_user_id identity = .error f) : ∃ m, f = .valueError m := by
  rw [extract_user_id] at h
  by_cases h1 : pyTruthy (objGet identity ("sub"))
  · rw [if_pos h1] at h; cases h
  · rw [if_neg h1] at h
    by_cases h2 : pyTruthy (objGet identity ("username"))
    · rw [if_pos h2] at h; cases h
    · rw [if_neg h2] at h
      refine ⟨("User not authenticated - missing user ID"), ?_⟩
      injection h with h3
      exact h3.symm

theorem resolveUserId_error (e : Event) (f : PyErr) (h : resolveUserId e = .error f) :
    ∃ m, f = .valueError m := by
  rw [resolveUserId] at h
  by_cases h1 : pyTruthy (objGet e.input ("UserId"))
  · rw [if_pos h1] at h; cases h
  · rw [if_neg h1] at h
    exact extract_user_id_error e.identity f h

/-- A fault-free environment: the store primitives succeed, robust deletion
reports nothing deleted, and the shard calculator returns a fixed bucket. -/
def okBehavior : Behavior :=
  ⟨none, fun _ => none, fun _ _ s => (.ok false, s),
   fun _ => .ok (("2025-01-15"), ("03"))⟩

/-- C8 (amended): when the input lacks a non-empty string ObjectKey or
QueuedTime or is empty, the handler raises before any store read or write is
attempted (empty trace, store unchanged); the error is a ValueError whenever
user-id resolution fails or resolves to a string, but a truthy non-string
user id makes validate_user_id raise TypeError first instead. -/
theorem C8_input_validation (B : Behavior) (e : Event) (s0 : Store)
    (h : nonEmptyStr (objGet e.input ("ObjectKey")) = none ∨
         nonEmptyStr (objGet e.input ("QueuedTime")) = none ∨ e.input = []) :
    (handler B e s0).store = s0 ∧ (handler B e s0).trace = [] ∧
    ∃ err, (handler B e s0).result = .error err ∧
      (∀ f, resolveUserId e = .error f → ∃ m, err = .valueError m) ∧
      (∀ s, resolveUserId e = .ok (Val.str s) → ∃ m, err = .valueError m) := by
  have main : ∃ err, validateEvent e = .error err ∧
      (∀ f, resolveUserId e = .error f → ∃ m, err = .valueError m) ∧
      (∀ s, resolveUserId e = .ok (Val.str s) → ∃ m, err = .valueError m) := by
    rcases hr : resolveUserId e with f | v
    · refine ⟨f, by rw [validateEvent, hr], ?_, ?_⟩
      · intro f' hf'
        exact resolveUserId_error e f hr
      · intro s hs
        cases hs
    · rcases v with s | n | _
      · by_cases hemp : e.input.isEmpty
        · refine ⟨.valueError ("Input data is required"), ?_, ?_, ?_⟩
          · simp only [validateEvent, hr, validate_user_id, hemp, if_true]
          · intro f hf; cases hf
          · intro s' _; exact ⟨_, rfl⟩
        · rcases h with h | h | h
          · refine ⟨.valueError ("ObjectKey must be a non-empty string"), ?_, ?_, ?_⟩
            · simp only [validateEvent, hr, validate_user_id, hemp,
                Bool.false_eq_true, if_false, h]
            · intro f hf; cases hf
            · intro s' _; exact ⟨_, rfl⟩
          · rcases hok : nonEmptyStr (objGet e.input ("ObjectKey")) with _ | k0
            · refine ⟨.valueError ("ObjectKey must be a non-empty string"), ?_, ?_, ?_⟩
              · simp only [validateEvent, hr, validate_user_id, hemp,
                  Bool.false_eq_true, if_false, hok]
              · intro f hf; cases hf
              · intro s' _; exact ⟨_, rfl⟩
            · refine ⟨.valueError ("QueuedTime must be a non-empty string"), ?_, ?_, ?_⟩
              · simp only [validateEvent, hr, validate_user_id, hemp,
                  Bool.false_eq_true, if_false, hok, h]
              · intro f hf; cases hf
              · intro s' _; exact ⟨_, rfl⟩
          · exact absurd (by rw [h]; rfl) hemp
      · refine ⟨.typeError ("expected string or bytes-like object"),
          by rw [validateEvent, hr]; rfl, ?_, ?_⟩
        · intro f hf; cases hf
        · intro s' hs'
          injection hs' with hh
          cases hh
      · refine ⟨.typeError ("expected string or bytes-like object"),
          by rw [validateEvent, hr]; rfl, ?_, ?_⟩
        · intro f hf; cases hf
        · intro s' hs'
          injection hs' with hh
          cases hh
  rcases main with ⟨err, hve, hp1, hp2⟩
  rw [handler_of_validate_error B e s0 err hve]
  exact ⟨rfl, rfl, err, rfl, hp1, hp2⟩

/-- C8 counterexample: an input that lacks ObjectKey but carries a truthy
non-string UserId makes the handler raise TypeError (from validate_user_id's
re.match), not ValueError as the claim states. -/
theorem C8_counterexample :
    objGet [(("UserId"), Val.num 1)] ("ObjectKey") = none ∧
    (handler okBehavior ⟨[(("UserId"), Val.num 1)], []⟩ []).result =
      .error (.typeError ("expected string or bytes-like object")) :=
  ⟨rfl, rfl⟩

/-- C8 witness: an empty-string ObjectKey is rejected with no store action. -/
theorem C8_witness :
    (handler okBehavior ⟨[(("ObjectKey"), Val.str (""))], [(("sub"), Val.str ("u1"))]⟩ []).store = [] ∧
    (handler okBehavior ⟨[(("ObjectKey"), Val.str (""))], [(("sub"), Val.str ("u1"))]⟩ []).trace = [] ∧
    ∃ err, (handler okBehavior ⟨[(("ObjectKey"), Val.str (""))], [(("sub"), Val.str ("u1"))]⟩ []).result = .error err ∧
      (∀ f, resolveUserId ⟨[(("ObjectKey"), Val.str (""))], [(("sub"), Val.str ("u1"))]⟩ = .error f →
        ∃ m, err = .valueError m) ∧
      (∀ s, resolveUserId ⟨[(("ObjectKey"), Val.str (""))], [(("sub"), Val.str ("u1"))]⟩ = .ok (Val.str s) →
        ∃ m, err = .valueError m) :=
  C8_input_validation okBehavior ⟨[(("ObjectKey"), Val.str (""))], [(("sub"), Val.str ("u1"))]⟩ []
    (Or.inl rfl)

end CreateDocumentResolver

namespace CreateDocumentResolver

/-- A creation input whose extra metadata includes PK and SK attributes. -/
def overrideInput : Obj :=
  [(("ObjectKey"), Val.str ("a.pdf")), (("QueuedTime"), Val.str ("2025-01-15T10:30:00Z")),
   (("UserId"), Val.str ("u1")), (("PK"), Val.str ("evil-pk")), (("SK"), Val.str ("evil-sk"))]

/-- The event carrying that input. -/
def overrideEvent : Event := ⟨overrideInput, []⟩

/-- C5: evaluation at the failing input.  Because the item literal at lines
142-148 spreads the creation input after the computed keys, an input carrying
its own PK/SK attributes overrides them: the create succeeds, the Document
Record is written under the caller-supplied key pair instead of the
user-scoped key, nothing is stored under `user#u1#doc#a.pdf` / `none`, and
the written record's partition key is not the user-scoped one and its sort
key is not the literal `none`. -/
theorem C5_pk_sk_override :
    (handler okBehavior overrideEvent []).result =
      .ok [(("ObjectKey"), Val.str ("a.pdf")), (("UserId"), Val.str ("u1"))]
  ∧ Store.lookup (handler okBehavior overrideEvent []).store (("evil-pk"), ("evil-sk")) =
      some (mkDocItem ("u1") ("a.pdf") overrideInput)
  ∧ objGet (mkDocItem ("u1") ("a.pdf") overrideInput) ("PK") = some (Val.str ("evil-pk"))
  ∧ objGet (mkDocItem ("u1") ("a.pdf") overrideInput) ("SK") = some (Val.str ("evil-sk"))
  ∧ Store.lookup (handler okBehavior overrideEvent []).store (doc_pk ("u1") ("a.pdf"), doc_sk) =
      none :=
  ⟨rfl, rfl, rfl, rfl, rfl⟩

/-- C1 (amended): the Document Record and List-Index Entry are written by two
separate sequential put_item calls, not a transactional batch.  When the first
put fails the error propagates and neither item is written; when the second
put fails the error propagates but the already-written Document Record remains
observable in the store, so a partial state is possible. -/
theorem C1_sequential_puts (B : Behavior) (e : Event) (s0 : Store) (u k t d sh : String)
    (hu : resolveUserId e = .ok (Val.str u))
    (hk : objGet e.input ("ObjectKey") = some (Val.str k)) (hk2 : k ≠ "")
    (ht : objGet e.input ("QueuedTime") = some (Val.str t)) (ht2 : t ≠ "")
    (hPK : objGet e.input ("PK") = none) (hSK : objGet e.input ("SK") = none)
    (hget : B.getFault = none)
    (hnone : Store.lookup s0 (doc_pk u k, doc_sk) = none)
    (hsh : B.calculate_shard t = .ok (d, sh)) :
    (∀ f, B.putFault (mkDocItem u k e.input) = some f →
       (handler B e s0).result = .error f ∧ (handler B e s0).store = s0)
  ∧ (∀ f, B.putFault (mkDocItem u k e.input) = none →
       B.putFault (mkListItem u k t d sh e.input) = some f →
       (handler B e s0).result = .error f ∧
       Store.lookup (handler B e s0).store (doc_pk u k, doc_sk) =
         some (mkDocItem u k e.input) ∧
       Store.lookup (handler B e s0).store (list_pk d sh, list_sk t k) =
         Store.lookup s0 (list_pk d sh, list_sk t k)) := by
  have hve := validateEvent_ok e u k t hu hk hk2 ht ht2
  have hh := handler_eq_core B e s0 u k t hve
  have hex : existenceCheck B s0 (doc_pk u k) = none := by
    rw [existenceCheck_clean B s0 (doc_pk u k) hget, hnone]
  constructor
  · intro f hdf
    rw [hh, handlerCore_unfold]
    simp only [hex, deletionStep_none]
    rw [writePhase_docfail B u k t e.input s0 d sh f hsh hdf]
    exact ⟨rfl, rfl⟩
  · intro f hdf hlf
    have hkd := itemKey_mkDocItem u k e.input hPK hSK
    rw [hh, handlerCore_unfold]
    simp only [hex, deletionStep_none]
    rw [writePhase_listfail B u k t e.input s0 d sh f (doc_pk u k, doc_sk) hsh hdf hkd hlf]
    refine ⟨rfl, ?_, ?_⟩
    · exact lookup_put_same s0 (doc_pk u k, doc_sk) (mkDocItem u k e.input)
    · exact lookup_put_ne s0 (doc_pk u k, doc_sk) (list_pk d sh, list_sk t k)
        (mkDocItem u k e.input)
        (fun hkk => list_sk_ne_doc_sk t k (congrArg Prod.snd hkk))

/-- An environment in which the document-record put succeeds but the
list-item put (any item whose SK is not the literal `none`) fails. -/
def seqFailBehavior : Behavior :=
  ⟨none,
   fun it => if objGet it ("SK") = some (Val.str ("none")) then none
             else some (.storeError ("InternalServerError")),
   fun _ _ s => (.ok false, s), fun _ => .ok (("2025-01-15"), ("03"))⟩

/-- A plain valid creation input. -/
def plainInput : Obj :=
  [(("ObjectKey"), Val.str ("a.pdf")), (("QueuedTime"), Val.str ("2025-01-15T10:30:00Z")),
   (("UserId"), Val.str ("u1"))]

/-- The event carrying that input. -/
def plainEvent : Event := ⟨plainInput, []⟩

/-- C1 counterexample: with the second put failing, the create operation fails
(the error propagates) and yet the freshly written Document Record is
observable in the store — partial state, contradicting the all-or-nothing
claim. -/
theorem C1_counterexample :
    (handler seqFailBehavior plainEvent []).result =
      .error (.storeError ("InternalServerError")) ∧
    Store.lookup (handler seqFailBehavior plainEvent []).store (doc_pk ("u1") ("a.pdf"), doc_sk) =
      some (mkDocItem ("u1") ("a.pdf") plainInput) :=
  ⟨rfl, rfl⟩

/-- An environment like seqFailBehavior with different constants, for the
amended-claim witness. -/
def seqFailBehavior2 : Behavior :=
  ⟨none,
   fun it => if objGet it ("SK") = some (Val.str ("none")) then none
             else some (.storeError ("boom")),
   fun _ _ s => (.ok false, s), fun _ => .ok (("2025-01-16"), ("07"))⟩

/-- A second plain valid creation input. -/
def plainInput2 : Obj :=
  [(("ObjectKey"), Val.str ("b.pdf")), (("QueuedTime"), Val.str ("2025-01-16T08:00:00Z")),
   (("UserId"), Val.str ("u2"))]

/-- The event carrying that input. -/
def plainEvent2 : Event := ⟨plainInput2, []⟩

/-- C1 witness: the amended claim at a concrete run in which the second put
fails: the error propagates, the Document Record is present, the list entry
is not. -/
theorem C1_witness :
    (handler seqFailBehavior2 plainEvent2 []).result = .error (.storeError ("boom")) ∧
    Store.lookup (handler seqFailBehavior2 plainEvent2 []).store (doc_pk ("u2") ("b.pdf"), doc_sk) =
      some (mkDocItem ("u2") ("b.pdf") plainInput2) ∧
    Store.lookup (handler seqFailBehavior2 plainEvent2 []).store
        (list_pk ("2025-01-16") ("07"), list_sk ("2025-01-16T08:00:00Z") ("b.pdf")) =
      Store.lookup []
        (list_pk ("2025-01-16") ("07"), list_sk ("2025-01-16T08:00:00Z") ("b.pdf")) :=
  (C1_sequential_puts seqFailBehavior2 plainEvent2 [] ("u2") ("b.pdf")
      ("2025-01-16T08:00:00Z") ("2025-01-16") ("07")
      rfl rfl (by decide) rfl (by decide) rfl rfl rfl rfl rfl).2
    (.storeError ("boom")) rfl rfl

end CreateDocumentResolver

namespace CreateDocumentResolver

/-- C2: when the best-effort existence lookup raises (the fault is swallowed
and the handler proceeds with no existing document), or when a truthy existing
record is found and the robust deletion raises (also swallowed), creation
still proceeds: both new items are written and the handler returns normally. -/
theorem C2_cleanup_swallowed (B : Behavior) (e : Event) (s0 : Store) (u k t d sh : String)
    (hu : resolveUserId e = .ok (Val.str u))
    (hk : objGet e.input ("ObjectKey") = some (Val.str k)) (hk2 : k ≠ "")
    (ht : objGet e.input ("QueuedTime") = some (Val.str t)) (ht2 : t ≠ "")
    (hPK : objGet e.input ("PK") = none) (hSK : objGet e.input ("SK") = none)
    (hsh : B.calculate_shard t = .ok (d, sh))
    (hdf : B.putFault (mkDocItem u k e.input) = none)
    (hlf : B.putFault (mkListItem u k t d sh e.input) = none) :
    (∀ f, B.getFault = some f →
       (handler B e s0).result = .ok [(("ObjectKey"), Val.str k), (("UserId"), Val.str u)] ∧
       Store.lookup (handler B e s0).store (doc_pk u k, doc_sk) =
         some (mkDocItem u k e.input) ∧
       Store.lookup (handler B e s0).store (list_pk d sh, list_sk t k) =
         some (mkListItem u k t d sh e.input))
  ∧ (∀ rec f, B.getFault = none → Store.lookup s0 (doc_pk u k, doc_sk) = some rec →
       rec ≠ [] → (B.delete_robust k rec s0).1 = .error f →
       (handler B e s0).result = .ok [(("ObjectKey"), Val.str k), (("UserId"), Val.str u)] ∧
       Store.lookup (handler B e s0).store (doc_pk u k, doc_sk) =
         some (mkDocItem u k e.input) ∧
       Store.lookup (handler B e s0).store (list_pk d sh, list_sk t k) =
         some (mkListItem u k t d sh e.input)) := by
  have hve := validateEvent_ok e u k t hu hk hk2 ht ht2
  have hh := handler_eq_core B e s0 u k t hve
  have hkd := itemKey_mkDocItem u k e.input hPK hSK
  have key_ne : (doc_pk u k, doc_sk) ≠ (list_pk d sh, list_sk t k) :=
    fun hkk => list_sk_ne_doc_sk t k (congrArg Prod.snd hkk).symm
  constructor
  · intro f hgf
    have hex := existenceCheck_fault B s0 (doc_pk u k) f hgf
    rw [hh, handlerCore_unfold]
    simp only [hex, deletionStep_none]
    rw [writePhase_ok B u k t e.input s0 d sh (doc_pk u k, doc_sk) hsh hdf hkd hlf]
    refine ⟨rfl, ?_, ?_⟩
    · rw [lookup_put_ne _ (list_pk d sh, list_sk t k) (doc_pk u k, doc_sk) _ key_ne]
      exact lookup_put_same s0 (doc_pk u k, doc_sk) (mkDocItem u k e.input)
    · exact lookup_put_same _ (list_pk d sh, list_sk t k) (mkListItem u k t d sh e.input)
  · intro rec f hgf hrec hrec2 _
    have hex : existenceCheck B s0 (doc_pk u k) = some rec := by
      rw [existenceCheck_clean B s0 (doc_pk u k) hgf, hrec]
    rw [hh, handlerCore_unfold]
    simp only [hex, deletionStep_some B k s0 rec hrec2]
    rw [writePhase_ok B u k t e.input ((B.delete_robust k rec s0).2) d sh
      (doc_pk u k, doc_sk) hsh hdf hkd hlf]
    refine ⟨rfl, ?_, ?_⟩
    · rw [lookup_put_ne _ (list_pk d sh, list_sk t k) (doc_pk u k, doc_sk) _ key_ne]
      exact lookup_put_same _ (doc_pk u k, doc_sk) (mkDocItem u k e.input)
    · exact lookup_put_same _ (list_pk d sh, list_sk t k) (mkListItem u k t d sh e.input)

/-- C4: under a successful run with calculate_shard returning (d, sh), the
List-Index Entry is stored under partition key list#d#s#sh and sort key
ts#t#id#k, and in particular the sort key for the scenario timestamp and
object key is the expected literal. -/
theorem C4_list_entry_key (B : Behavior) (e : Event) (s0 : Store) (u k t d sh : String)
    (hu : resolveUserId e = .ok (Val.str u))
    (hk : objGet e.input ("ObjectKey") = some (Val.str k)) (hk2 : k ≠ "")
    (ht : objGet e.input ("QueuedTime") = some (Val.str t)) (ht2 : t ≠ "")
    (hPK : objGet e.input ("PK") = none) (hSK : objGet e.input ("SK") = none)
    (hsh : B.calculate_shard t = .ok (d, sh))
    (hdf : B.putFault (mkDocItem u k e.input) = none)
    (hlf : B.putFault (mkListItem u k t d sh e.input) = none) :
    Store.lookup (handler B e s0).store (list_pk d sh, list_sk t k) =
      some (mkListItem u k t d sh e.input)
  ∧ list_pk d sh = "list#" ++ d ++ "#s#" ++ sh
  ∧ list_sk t k = "ts#" ++ t ++ "#id#" ++ k
  ∧ list_sk ("2025-01-15T10:30:00Z") ("a.pdf") = ("ts#2025-01-15T10:30:00Z#id#a.pdf") := by
  have hve := validateEvent_ok e u k t hu hk hk2 ht ht2
  have hkd := itemKey_mkDocItem u k e.input hPK hSK
  rw [handler_eq_core B e s0 u k t hve, handlerCore_unfold]
  rw [writePhase_ok B u k t e.input
    ((deletionStep B k s0 (existenceCheck B s0 (doc_pk u k))).1) d sh
    (doc_pk u k, doc_sk) hsh hdf hkd hlf]
  exact ⟨lookup_put_same _ (list_pk d sh, list_sk t k) (mkListItem u k t d sh e.input),
    rfl, rfl, rfl⟩

theorem deletionStep_trace (B : Behavior) (k : String) (s0 : Store) (ex : Option Obj) :
    ∀ x ∈ (deletionStep B k s0 ex).2, x.isDel = true := by
  intro x hx
  rcases ex with _ | rec
  · cases hx
  · rcases rec with _ | ⟨p, rest⟩
    · cases hx
    · simp only [deletionStep, List.isEmpty_cons, Bool.false_eq_true, if_false,
        List.mem_singleton] at hx
      rw [hx]
      rfl

theorem writePhase_trace_put (B : Behavior) (u k t : String) (inp : Obj) (s1 : Store) :
    ∀ x ∈ (writePhase B u k t inp s1).2.2, x.isPut = true := by
  intro x hx
  rw [writePhase] at hx
  rcases hsh : B.calculate_shard t with f | ds
  · rw [hsh] at hx
    cases hx
  · simp only [hsh] at hx
    rcases hp1 : put_item B s1 (mkDocItem u k inp) with f | s2
    · simp only [hp1, List.mem_singleton] at hx
      rw [hx]; rfl
    · simp only [hp1] at hx
      rcases hp2 : put_item B s2 (mkListItem u k t ds.1 ds.2 inp) with f | s3
      · simp only [hp2, List.mem_cons, List.mem_singleton] at hx
        rcases hx with hx | hx | hx
        · rw [hx]; rfl
        · rw [hx]; rfl
        · cases hx
      · simp only [hp2, List.mem_cons, List.mem_singleton] at hx
        rcases hx with hx | hx | hx
        · rw [hx]; rfl
        · rw [hx]; rfl
        · cases hx

/-- C6: when the shard calculation raises on the queued time, the create
operation fails by propagating exactly that error, and no put of either new
item is attempted (stores may only have been touched by the earlier
best-effort deletion, never by the new writes). -/
theorem C6_malformed_timestamp (B : Behavior) (e : Event) (s0 : Store) (u k t : String)
    (f : PyErr)
    (hu : resolveUserId e = .ok (Val.str u))
    (hk : objGet e.input ("ObjectKey") = some (Val.str k)) (hk2 : k ≠ "")
    (ht : objGet e.input ("QueuedTime") = some (Val.str t)) (ht2 : t ≠ "")
    (hsh : B.calculate_shard t = .error f) :
    (handler B e s0).result = .error f ∧
    ∀ it, Act.putItem it ∉ (handler B e s0).trace := by
  have hve := validateEvent_ok e u k t hu hk hk2 ht ht2
  rw [handler_eq_core B e s0 u k t hve, handlerCore_unfold]
  rw [writePhase_shard_error B u k t e.input
    ((deletionStep B k s0 (existenceCheck B s0 (doc_pk u k))).1) f hsh]
  constructor
  · rfl
  · intro it hmem
    simp only [List.append_nil] at hmem
    rcases List.mem_cons.mp hmem with h | h
    · cases h
    · have hdel := deletionStep_trace B k s0 (existenceCheck B s0 (doc_pk u k)) _ h
      simp [Act.isDel] at hdel

end CreateDocumentResolver

namespace CreateDocumentResolver

theorem mem_deletionStep (B : Behavior) (k a : String) (s0 : Store) (ex : Option Obj) (r : Obj) :
    Act.deleteRobust a r ∈ (deletionStep B k s0 ex).2 ↔ (a = k ∧ ex = some r ∧ r ≠ []) := by
  rcases ex with _ | rec
  · simp [deletionStep]
  · rcases rec with _ | ⟨p, rest⟩
    · simp [deletionStep]
    · simp only [deletionStep, List.isEmpty_cons, Bool.false_eq_true, if_false,
        List.mem_singleton, Act.deleteRobust.injEq, Option.some.injEq]
      constructor
      · rintro ⟨h1, h2⟩
        exact ⟨h1, h2.symm, by rw [h2]; simp⟩
      · rintro ⟨h1, h2, _⟩
        exact ⟨h1, h2.symm⟩

/-- C3: the robust list-entry deletion is invoked if and only if the prior
existence lookup succeeded and returned a truthy existing Document Record;
when invoked it is passed the object key and that stored record; and in every
run all deletion actions occur strictly before all item writes (the trace
splits into a put-free prefix holding every deletion and a deletion-free
suffix holding every put). -/
theorem C3_deletion_timing (B : Behavior) (e : Event) (s0 : Store) (u k t : String)
    (hu : resolveUserId e = .ok (Val.str u))
    (hk : objGet e.input ("ObjectKey") = some (Val.str k)) (hk2 : k ≠ "")
    (ht : objGet e.input ("QueuedTime") = some (Val.str t)) (ht2 : t ≠ "") :
    (∀ a rec, Act.deleteRobust a rec ∈ (handler B e s0).trace →
       a = k ∧ B.getFault = none ∧
       Store.lookup s0 (doc_pk u k, doc_sk) = some rec ∧ rec ≠ [])
  ∧ ((B.getFault = none ∧ ∃ rec, Store.lookup s0 (doc_pk u k, doc_sk) = some rec ∧ rec ≠ []) →
       ∃ rec, Store.lookup s0 (doc_pk u k, doc_sk) = some rec ∧
         Act.deleteRobust k rec ∈ (handler B e s0).trace)
  ∧ (∃ pre post, (handler B e s0).trace = pre ++ post ∧
       (∀ x ∈ pre, x.isPut = false) ∧ (∀ x ∈ post, x.isDel = false)) := by
  have hve := validateEvent_ok e u k t hu hk hk2 ht ht2
  rw [handler_eq_core B e s0 u k t hve, handlerCore_unfold]
  refine ⟨?_, ?_, ?_⟩
  · intro a rec hmem
    rcases List.mem_cons.mp hmem with h | h
    · cases h
    · rcases List.mem_append.mp h with h2 | h2
      · rcases (mem_deletionStep B k a s0 (existenceCheck B s0 (doc_pk u k)) rec).mp h2 with
          ⟨ha, hex, hrec⟩
        rcases hgf : B.getFault with _ | f
        · rw [existenceCheck_clean B s0 _ hgf] at hex
          exact ⟨ha, rfl, hex, hrec⟩
        · rw [existenceCheck_fault B s0 _ f hgf] at hex
          cases hex
      · have h3 := writePhase_trace_put B u k t e.input _ _ h2
        simp [Act.isPut] at h3
  · rintro ⟨hgf, rec, hrec, hrec2⟩
    refine ⟨rec, hrec, ?_⟩
    apply List.mem_cons_of_mem
    apply List.mem_append_left
    rw [mem_deletionStep]
    have hex : existenceCheck B s0 (doc_pk u k) = some rec := by
      rw [existenceCheck_clean B s0 _ hgf, hrec]
    exact ⟨rfl, hex, hrec2⟩
  · refine ⟨Act.getItem (doc_pk u k) doc_sk ::
        (deletionStep B k s0 (existenceCheck B s0 (doc_pk u k))).2,
      (writePhase B u k t e.input
        (deletionStep B k s0 (existenceCheck B s0 (doc_pk u k))).1).2.2,
      (List.cons_append _ _ _).symm, ?_, ?_⟩
    · intro x hx
      rcases List.mem_cons.mp hx with h | h
      · rw [h]; rfl
      · have hdel := deletionStep_trace B k s0 _ x h
        cases x with
        | getItem pk sk => rfl
        | deleteRobust a r => rfl
        | putItem it => simp [Act.isDel] at hdel
    · intro x hx
      have hput := writePhase_trace_put B u k t e.input _ x hx
      cases x with
      | getItem pk sk => simp [Act.isPut] at hput
      | deleteRobust a r => simp [Act.isPut] at hput
      | putItem it => rfl

/-- An environment in which the existence lookup raises (and everything else
succeeds), for the C2 witness. -/
def getFaultBehavior : Behavior :=
  ⟨some (.storeError ("gfail")), fun _ => none, fun _ _ s => (.ok false, s),
   fun _ => .ok (("2025-01-15"), ("03"))⟩

/-- C2 witness: with the existence lookup raising, creation still writes both
items and returns normally. -/
theorem C2_witness :
    (handler getFaultBehavior plainEvent []).result =
      .ok [(("ObjectKey"), Val.str ("a.pdf")), (("UserId"), Val.str ("u1"))] ∧
    Store.lookup (handler getFaultBehavior plainEvent []).store
        (doc_pk ("u1") ("a.pdf"), doc_sk) =
      some (mkDocItem ("u1") ("a.pdf") plainInput) ∧
    Store.lookup (handler getFaultBehavior plainEvent []).store
        (list_pk ("2025-01-15") ("03"), list_sk ("2025-01-15T10:30:00Z") ("a.pdf")) =
      some (mkListItem ("u1") ("a.pdf") ("2025-01-15T10:30:00Z") ("2025-01-15") ("03") plainInput) :=
  (C2_cleanup_swallowed getFaultBehavior plainEvent [] ("u1") ("a.pdf")
      ("2025-01-15T10:30:00Z") ("2025-01-15") ("03")
      rfl rfl (by decide) rfl (by decide) rfl rfl rfl rfl rfl).1
    (.storeError ("gfail")) rfl

/-- C3 witness: on a concrete fault-free run the trace splits into a put-free
prefix and a deletion-free suffix. -/
theorem C3_witness :
    ∃ pre post, (handler okBehavior plainEvent []).trace = pre ++ post ∧
      (∀ x ∈ pre, x.isPut = false) ∧ (∀ x ∈ post, x.isDel = false) :=
  (C3_deletion_timing okBehavior plainEvent [] ("u1") ("a.pdf") ("2025-01-15T10:30:00Z")
    rfl rfl (by decide) rfl (by decide)).2.2

/-- C4 witness: the scenario run stores the list entry under the computed
shard key with the expected literal sort key. -/
theorem C4_witness :
    Store.lookup (handler okBehavior plainEvent []).store
        (list_pk ("2025-01-15") ("03"), list_sk ("2025-01-15T10:30:00Z") ("a.pdf")) =
      some (mkListItem ("u1") ("a.pdf") ("2025-01-15T10:30:00Z") ("2025-01-15") ("03") plainInput)
  ∧ list_pk ("2025-01-15") ("03") = "list#" ++ ("2025-01-15") ++ "#s#" ++ ("03")
  ∧ list_sk ("2025-01-15T10:30:00Z") ("a.pdf") =
      "ts#" ++ ("2025-01-15T10:30:00Z") ++ "#id#" ++ ("a.pdf")
  ∧ list_sk ("2025-01-15T10:30:00Z") ("a.pdf") = ("ts#2025-01-15T10:30:00Z#id#a.pdf") :=
  C4_list_entry_key okBehavior plainEvent [] ("u1") ("a.pdf") ("2025-01-15T10:30:00Z")
    ("2025-01-15") ("03") rfl rfl (by decide) rfl (by decide) rfl rfl rfl rfl rfl

/-- An environment whose shard calculation always raises, for the C6 witness. -/
def shardFailBehavior : Behavior :=
  ⟨none, fun _ => none, fun _ _ s => (.ok false, s),
   fun _ => .error (.valueError ("Invalid isoformat string"))⟩

/-- A creation input with a malformed queued time. -/
def badTimeInput : Obj :=
  [(("ObjectKey"), Val.str ("a.pdf")), (("QueuedTime"), Val.str ("not-a-time")),
   (("UserId"), Val.str ("u1"))]

/-- The event carrying that input. -/
def badTimeEvent : Event := ⟨badTimeInput, []⟩

/-- C6 witness: a malformed queued time propagates the shard error and no put
is attempted. -/
theorem C6_witness :
    (handler shardFailBehavior badTimeEvent []).result =
      .error (.valueError ("Invalid isoformat string")) ∧
    ∀ it, Act.putItem it ∉ (handler shardFailBehavior badTimeEvent []).trace :=
  C6_malformed_timestamp shardFailBehavior badTimeEvent [] ("u1") ("a.pdf") ("not-a-time")
    (.valueError ("Invalid isoformat string")) rfl rfl (by decide) rfl (by decide) rfl

end CreateDocumentResolver
